import Mathlib

/-
Shallow embedding of the ENA Portal API client library
(ena_portal_api/ena_handler.py) and verification of its
retry/fallback resolution logic and record normalization.

Modelling conventions:
- Python dicts holding one record are association lists from field
  name to a Value (string, integer, or the Python None).
- Python exceptions are the PyErr inductive; functions that can raise
  return Except PyErr.
- The HTTP transport (EnaApiHandler.post_request) is an oracle
  function from the built parameter set to a response; engines are
  instrumented to also return the list of parameter sets actually
  sent, so that fallback/retry behaviour is provable.
- Python string primitives used by the source, namely str.replace,
  str.split, str.strip, int(str) and the substring test, are
  re-implemented executably over lists of characters.
-/

namespace Ena

/-! ### Python string primitives -/

/-- Replace every non-overlapping occurrence of `pat` in the list by
`rep`, left to right, as Python str.replace does for a nonempty
pattern. The fuel argument only makes the recursion structural: every
step consumes at least one character, so fuel equal to the length of
the remaining input never runs out. -/
def listReplaceGo (pat rep : List Char) : Nat → List Char → List Char
  | _, [] => []
  | 0, s => s
  | fuel + 1, c :: cs =>
    if pat ≠ [] ∧ pat.isPrefixOf (c :: cs) then
      rep ++ listReplaceGo pat rep fuel ((c :: cs).drop pat.length)
    else
      c :: listReplaceGo pat rep fuel cs

/-- Python str.replace on strings. -/
def pyReplace (s pat rep : String) : String :=
  String.mk (listReplaceGo pat.data rep.data s.data.length s.data)

/-- Substring occurrence test on character lists. -/
def listContainsSub (sub : List Char) : List Char → Bool
  | [] => sub.isPrefixOf []
  | c :: cs => sub.isPrefixOf (c :: cs) || listContainsSub sub cs

/-- Python substring membership test, `sub in s`. -/
def strContains (s sub : String) : Bool :=
  listContainsSub sub.data s.data

/-- Split a character list on a separator character. -/
def listSplitOn (sep : Char) : List Char → List (List Char)
  | [] => [[]]
  | c :: cs =>
    let rest := listSplitOn sep cs
    if c == sep then [] :: rest
    else
      match rest with
      | [] => [[c]]
      | r :: rs => (c :: r) :: rs

/-- Python str.split on a one-character separator. -/
def pySplit (s : String) (sep : Char) : List String :=
  (listSplitOn sep s.data).map String.mk

/-- Python str.strip (leading and trailing whitespace removed). -/
def pyStrip (s : String) : String :=
  String.mk (((s.data.dropWhile Char.isWhitespace).reverse.dropWhile
    Char.isWhitespace).reverse)

/-- Decimal digits of a Python int literal after the first digit:
underscores are allowed only between digits. -/
def pyDigitsGo : List Char → Nat → Option Nat
  | [], acc => some acc
  | c :: cs, acc =>
    if c.isDigit then pyDigitsGo cs (acc * 10 + (c.toNat - 48))
    else if c == '_' then
      match cs with
      | c2 :: cs2 =>
        if c2.isDigit then pyDigitsGo cs2 (acc * 10 + (c2.toNat - 48))
        else none
      | [] => none
    else none

/-- Nonempty digit run with optional single underscores between digits. -/
def pyDigits : List Char → Option Nat
  | [] => none
  | c :: cs => if c.isDigit then pyDigitsGo cs (c.toNat - 48) else none

/-- Python int(string): strip whitespace, optional sign, digit run.
Returns none where Python int() raises ValueError. -/
def pythonInt (s : String) : Option Int :=
  match (pyStrip s).data with
  | '-' :: rest => (pyDigits rest).map (fun n => -(n : Int))
  | '+' :: rest => (pyDigits rest).map (fun n => (n : Int))
  | rest => (pyDigits rest).map (fun n => (n : Int))

/-- First character of str(status_code) equals the digit 2; the source
tests str(response.status_code)[0] != "2" for the error branch. -/
def statusStartsWith2 (n : Nat) : Bool :=
  (Nat.repr n).data.head? == some '2'

/-! ### Values, records and Python exceptions -/

/-- A JSON / Python value stored in one record field: the ENA API
returns strings, normalization introduces ints and None. -/
inductive Value where
  | vStr (s : String)
  | vInt (n : Int)
  | vNone
deriving DecidableEq

/-- One record, a Python dict from field name to value. -/
abbrev Record := List (String × Value)

/-- Python exceptions raised by the client code. NoDataException is
the private sentinel class of ena_handler (a ValueError subclass). -/
inductive PyErr where
  | valueError (args : List String)
  | typeError (msg : String)
  | indexError (msg : String)
  | keyError (key : String)
  | noData
deriving DecidableEq

instance {ε α : Type} [DecidableEq ε] [DecidableEq α] :
    DecidableEq (Except ε α) := fun a b =>
  match a, b with
  | .ok x, .ok y =>
    if h : x = y then .isTrue (by rw [h]) else .isFalse (by simp [h])
  | .error x, .error y =>
    if h : x = y then .isTrue (by rw [h]) else .isFalse (by simp [h])
  | .ok _, .error _ => .isFalse (by simp)
  | .error _, .ok _ => .isFalse (by simp)

/-- Key membership test, Python `k in d`. -/
def containsKey (r : Record) (k : String) : Bool :=
  r.any (fun kv => kv.1 == k)

/-- Lookup, Python `d[k]` returning none where Python raises KeyError. -/
def lookupKey (r : Record) (k : String) : Option Value :=
  (r.find? (fun kv => kv.1 == k)).map (fun kv => kv.2)

/-- Python `d[k] = v`: replace the value in place when the key exists,
otherwise append the new binding. -/
def setKey (r : Record) (k : String) (v : Value) : Record :=
  if containsKey r k then
    r.map (fun kv => if kv.1 == k then (k, v) else kv)
  else
    r ++ [(k, v)]

/-- Python `d.pop(k)` restricted to its removal effect. -/
def popKey (r : Record) (k : String) : Record :=
  r.filter (fun kv => !(kv.1 == k))

/-! ### Transport responses -/

/-- Response body as far as the client inspects it: a JSON array of
records, a JSON object (error payloads with an optional message
field), undecodable raw text, or a missing body (text None). -/
inductive Body where
  | rows (rs : List Record)
  | obj (message : Option String)
  | raw (s : String)
  | noText
deriving DecidableEq

/-- An HTTP response from the transport adapter. -/
structure Resp where
  status : Nat
  body : Body
deriving DecidableEq

/-- Python json.loads(response.text)[0]: the errors are those raised
by json.loads (ValueError on undecodable text, TypeError on a None
text) and by the [0] indexing (IndexError on an empty array, KeyError
on a decoded object). -/
def jsonFirstRow : Body → Except PyErr Record
  | .rows [] => .error (.indexError "list index out of range")
  | .rows (r :: _) => .ok r
  | .obj _ => .error (.keyError "0")
  | .raw _ => .error (.valueError ["Expecting value"])
  | .noText => .error (.typeError "the JSON object must be str, not NoneType")

/-- Python json.loads(response.text) expected to be an array. -/
def jsonRows : Body → Except PyErr (List Record)
  | .rows rs => .ok rs
  | .obj _ => .error (.typeError "decoded object is not a list in this model")
  | .raw _ => .error (.valueError ["Expecting value"])
  | .noText => .error (.typeError "the JSON object must be str, not NoneType")

/-! ### Module constants of ena_handler.py -/

def RETRY_COUNT : Nat := 5

def STUDY_DEFAULT_FIELDS : String :=
  "study_accession,secondary_study_accession,description,study_alias," ++
  "study_title,tax_id,scientific_name,center_name,first_public"

def RUN_DEFAULT_FIELDS_STR : String :=
  "study_accession,secondary_study_accession,run_accession,library_source," ++
  "library_strategy,library_layout,fastq_ftp,fastq_md5,fastq_bytes," ++
  "base_count,read_count,instrument_platform,instrument_model," ++
  "secondary_sample_accession,library_name,sample_alias,sample_title," ++
  "sample_description,first_public"

def ASSEMBLY_DEFAULT_FIELDS_STR : String :=
  "analysis_accession,analysis_alias,analysis_title,analysis_type," ++
  "assembly_type,broker_name,center_name,description,first_public," ++
  "last_updated,pipeline_name,pipeline_version,sample_accession," ++
  "sample_alias,sample_description,sample_title,scientific_name," ++
  "secondary_sample_accession,secondary_study_accession,study_accession," ++
  "study_alias,study_title,submitted_aspera,submitted_bytes,submitted_ftp," ++
  "submitted_galaxy,submitted_md5,tax_id,sequencing_method," ++
  "assembly_quality,assembly_software,taxonomic_classification," ++
  "completeness_score,contamination_score,binning_software"

/-- Python truthiness of an optional string argument: None and the
empty string are falsy. -/
def pyTruthy : Option String → Bool
  | none => false
  | some s => !(s == "")

/-- Python str.format of a possibly-None argument. -/
def pyStr : Option String → String
  | none => "None"
  | some s => s

/-- Python `a or b` for an optional string against a default. -/
def pyOrStr (v : Option String) (d : String) : String :=
  if pyTruthy v then pyStr v else d

/-! ### Record normalization (ena_handler.py pure helpers) -/

/-- EnaApiHandler.remap_study_fields: pop study_description into
description and study_name into study_alias when present. -/
def remap_study_fields (record : Record) : Record :=
  let d1 :=
    match lookupKey record "study_description" with
    | some v => setKey (popKey record "study_description") "description" v
    | none => record
  match lookupKey d1 "study_name" with
  | some v => setKey (popKey d1 "study_name") "study_alias" v
  | none => d1

/-- Python len(value): defined on strings, TypeError otherwise. -/
def pyLen : Value → Except PyErr Nat
  | .vStr s => .ok s.length
  | .vInt _ => .error (.typeError "object of type int has no len()")
  | .vNone => .error (.typeError "object of type NoneType has no len()")

/-- Python int(value): parse a string, pass an int through, TypeError
on None; ValueError where the string does not parse. -/
def pyIntOfValue : Value → Except PyErr Int
  | .vStr s =>
    match pythonInt s with
    | some n => .ok n
    | none => .error (.valueError
        ["invalid literal for int() with base 10: " ++ s])
  | .vInt n => .ok n
  | .vNone => .error (.typeError
      "int() argument must be a string, not NoneType")

/-- Python sum(int(s) for s in value.split(sep=semicolon)) on a string
value; TypeError when the value has no split attribute. -/
def pySplitSum : Value → Except PyErr Int
  | .vStr s =>
    (pySplit s ';').foldlM
      (fun acc part => (pyIntOfValue (.vStr part)).map (fun n => acc + n)) 0
  | .vInt _ => .error (.typeError "int object has no attribute split")
  | .vNone => .error (.typeError "NoneType object has no attribute split")

/-- Second half of EnaApiHandler.get_run_raw_size: the submitted_bytes
branch. Note the source guards the sum with len(run["submitted_ftp"]),
not len(run["submitted_bytes"]): a missing submitted_ftp key raises
KeyError here. -/
def get_run_raw_size_submitted (run : Record) : Except PyErr (Option Int) :=
  match lookupKey run "submitted_bytes" with
  | none => .ok none
  | some sb =>
    match lookupKey run "submitted_ftp" with
    | none => .error (.keyError "submitted_ftp")
    | some ftp =>
      match pyLen ftp with
      | .error e => .error e
      | .ok n =>
        if n ≠ 0 then (pySplitSum sb).map some
        else .ok none

/-- EnaApiHandler.get_run_raw_size: sum the semicolon-delimited byte
counts of fastq_bytes, else of submitted_bytes, else None (after a
logged warning). -/
def get_run_raw_size (run : Record) : Except PyErr (Option Int) :=
  match lookupKey run "fastq_bytes" with
  | none => get_run_raw_size_submitted run
  | some fb =>
    match pyLen fb with
    | .error e => .error e
    | .ok n =>
      if n ≠ 0 then (pySplitSum fb).map some
      else get_run_raw_size_submitted run

/-- One iteration of the int-coercion loop of EnaApiHandler.get_run
(fields read_count and base_count): try int(run[p]); on ValueError
raise when public is False, else substitute -1. Only ValueError is
caught by the source. -/
def get_run_coerce_one (public : Bool) (run : Record) (p : String) :
    Except PyErr Record :=
  if containsKey run p then
    match lookupKey run p with
    | none => .ok run
    | some v =>
      match pyIntOfValue v with
      | .ok n => .ok (setKey run p (.vInt n))
      | .error (.valueError args) =>
        if !public then .error (.valueError args)
        else .ok (setKey run p (.vInt (-1)))
      | .error e => .error e
  else .ok run

/-- The full coercion loop of EnaApiHandler.get_run over the tuple
(read_count, base_count). -/
def get_run_coerce_counts (public : Bool) (run : Record) :
    Except PyErr Record := do
  let r1 ← get_run_coerce_one public run "read_count"
  get_run_coerce_one public r1 "base_count"

/-- One iteration of the int-coercion loop of
EnaApiHandler.get_study_runs: try int(run[p]); on ValueError the field
is set to None. Only ValueError is caught by the source. -/
def get_study_runs_coerce_one (run : Record) (p : String) :
    Except PyErr Record :=
  if containsKey run p then
    match lookupKey run p with
    | none => .ok run
    | some v =>
      match pyIntOfValue v with
      | .ok n => .ok (setKey run p (.vInt n))
      | .error (.valueError _) => .ok (setKey run p .vNone)
      | .error e => .error e
  else .ok run

/-- The full coercion loop of EnaApiHandler.get_study_runs over the
tuple (read_count, base_count). -/
def get_study_runs_coerce_counts (run : Record) : Except PyErr Record := do
  let r1 ← get_study_runs_coerce_one run "read_count"
  get_study_runs_coerce_one r1 "base_count"

/-- A computed raw size as stored into the record. -/
def valueOfOptInt : Option Int → Value
  | some n => .vInt n
  | none => .vNone

def SAMPLE_DEFAULT_FIELDS : String :=
  "sample_accession,secondary_sample_accession,sample_alias,description," ++
  "tax_id,scientific_name,host_tax_id,host_status,host_sex," ++
  "submitted_host_sex,host_body_site,host_gravidity,host_genotype," ++
  "host_phenotype,host_growth_conditions,collection_date,collected_by," ++
  "country,location,depth,altitude,elevation,first_public,checklist," ++
  "center_name,broker_name,environmental_package,investigation_type," ++
  "experimental_factor,environment_biome,environment_feature," ++
  "environment_material,temperature,salinity,ph,sample_collection," ++
  "project_name,target_gene,sequencing_method,sample_title,status_id," ++
  "host_scientific_name"

/-! ### Resolution engines -/

/-- The parameter dict sent to the portal search endpoint: the keys
set by get_default_params plus result, fields and query. -/
structure ApiParams where
  format : String
  includeMetagenomes : Bool
  dataPortal : String
  result : String
  fields : String
  query : String
deriving DecidableEq

/-- The transport adapter, EnaApiHandler.post_request: one response
per parameter set. -/
abbrev Oracle := ApiParams → Resp

/-- EnaApiHandler.get_run. The searchPortal argument models the
search_params dict, whose only exercised key is dataPortal; the
result pairs the parameter sets actually sent with the outcome. -/
def get_run (o : Oracle) (acc : String) (fieldsOpt : Option String)
    (public : Bool) (attempt : Nat) (searchPortal : Option String) :
    List ApiParams × Except PyErr Record :=
  let portal := searchPortal.getD "metagenome"
  let data : ApiParams :=
    { format := "json", includeMetagenomes := true, dataPortal := portal,
      result := "read_run", fields := pyOrStr fieldsOpt RUN_DEFAULT_FIELDS_STR,
      query := "run_accession=\"" ++ acc ++ "\"" }
  let resp := o data
  if !(statusStartsWith2 resp.status) then
    ([data],
      .error (.valueError ["Could not retrieve run with accession %s.", acc]))
  else if resp.status == 204 then
    if _h1 : attempt < 2 then
      let tail := get_run o acc fieldsOpt public (attempt + 1) searchPortal
      (data :: tail.1, tail.2)
    else if _h2 : attempt = 2 ∧ portal ≠ "ena" then
      let tail := get_run o acc fieldsOpt public 0 (some "ena")
      (data :: tail.1, tail.2)
    else
      ([data], .error (.valueError ["Could not find run " ++ acc ++
        " in ENA after " ++ Nat.repr RETRY_COUNT ++ " attempts"]))
  else
    match jsonFirstRow resp.body with
    | .error (.keyError k) => ([data], .error (.keyError k))
    | .error _ =>
      ([data], .error (.valueError ["Could not find run " ++ acc ++ " in ENA."]))
    | .ok run =>
      let addSize :=
        match fieldsOpt with
        | none => true
        | some f => strContains f "raw_data_size"
      let step1 : Except PyErr Record :=
        if addSize then
          match get_run_raw_size run with
          | .ok sz => .ok (setKey run "raw_data_size" (valueOfOptInt sz))
          | .error e => .error e
        else .ok run
      match step1 with
      | .error e => ([data], .error e)
      | .ok r1 =>
        match get_run_coerce_counts public r1 with
        | .ok r2 => ([data], .ok r2)
        | .error e => ([data], .error e)
termination_by
  (if searchPortal = some "ena" then 0 else 3) + (2 - attempt)
decreasing_by
  · rcases eq_or_ne searchPortal (some "ena") with h | h <;> simp [h] <;> omega
  · have h : searchPortal ≠ some "ena" := by
      intro hcon
      apply _h2.2
      show searchPortal.getD "metagenome" = "ena"
      rw [hcon]
      rfl
    simp [h, _h2.1]

/-- EnaApiHandler.get_sample. Returns .ok none where the Python
function falls off the end and returns None. -/
def get_sample (o : Oracle) (acc : String) (fieldsOpt : Option String)
    (searchPortal : Option String) (attempt : Nat) :
    List ApiParams × Except PyErr (Option Record) :=
  let portal := searchPortal.getD "metagenome"
  let data : ApiParams :=
    { format := "json", includeMetagenomes := true, dataPortal := portal,
      result := "sample", fields := pyOrStr fieldsOpt SAMPLE_DEFAULT_FIELDS,
      query := "(sample_accession=\"" ++ acc ++
        "\" OR secondary_sample_accession=\"" ++ acc ++ "\") " }
  let resp := o data
  if resp.status == 200 then
    match jsonFirstRow resp.body with
    | .ok r => ([data], .ok (some r))
    | .error e => ([data], .error e)
  else if !(statusStartsWith2 resp.status) then
    ([data], .error
      (.valueError ["Could not retrieve sample with accession %s.", acc]))
  else if resp.status == 204 then
    if _h : attempt < 2 then
      let newPortal := if portal == "ena" then "metagenome" else "ena"
      let tail := get_sample o acc fieldsOpt (some newPortal) (attempt + 1)
      (data :: tail.1, tail.2)
    else
      ([data], .error (.valueError ["Could not find sample " ++ acc ++
        " in ENA after " ++ Nat.repr RETRY_COUNT ++ " attempts"]))
  else
    ([data], .ok none)
termination_by 2 - attempt
decreasing_by
  omega

/-- The query of EnaApiHandler.get_study, following the Python
truthiness of the two optional accession arguments. -/
def studyQuery (pAcc sAcc : Option String) : String :=
  if pyTruthy pAcc && !(pyTruthy sAcc) then
    "study_accession=\"" ++ pyStr pAcc ++ "\""
  else if !(pyTruthy pAcc) && pyTruthy sAcc then
    "secondary_study_accession=\"" ++ pyStr sAcc ++ "\""
  else
    "study_accession=\"" ++ pyStr pAcc ++
      "\" AND secondary_study_accession=\"" ++ pyStr sAcc ++ "\""

/-- The candidate parameter list built by EnaApiHandler.get_study:
result types study, read_study, analysis_study crossed with data
portals ena, metagenome, with the study result type renaming the
requested description and study_alias fields. -/
def study_query_params (pAcc sAcc fieldsOpt : Option String) :
    List ApiParams :=
  let fields := pyOrStr fieldsOpt STUDY_DEFAULT_FIELDS
  let q := studyQuery pAcc sAcc
  (["study", "read_study", "analysis_study"].map (fun rt =>
    ["ena", "metagenome"].map (fun dp =>
      let f :=
        if rt == "study" then
          let f1 :=
            if strContains fields "description" then
              pyReplace fields "description" "study_description"
            else fields
          if strContains f1 "study_alias" then
            pyReplace f1 "study_alias" "study_name"
          else f1
        else fields
      ({ format := "json", includeMetagenomes := true, dataPortal := dp,
         result := rt, fields := f, query := q } : ApiParams)))).flatten

/-- EnaApiHandler._get_study applied to the response of one attempt:
204 raises NoDataException, an undecodable or empty body raises the
corresponding json or indexing error, and a study result type is
remapped. -/
def _get_study (p : ApiParams) (resp : Resp) : Except PyErr Record :=
  if resp.status == 204 then .error .noData
  else
    match jsonFirstRow resp.body with
    | .error e => .error e
    | .ok study =>
      .ok (if p.result == "study" then remap_study_fields study else study)

/-- The candidate loop of EnaApiHandler.get_study. Every exception
_get_study can raise (NoDataException, IndexError, TypeError,
ValueError, KeyError) is listed in one of the two except clauses, so
any failed attempt advances to the next candidate. -/
def get_study_loop (o : Oracle) (finalErr : PyErr) :
    List ApiParams → List ApiParams × Except PyErr Record
  | [] => ([], .error finalErr)
  | p :: rest =>
    match _get_study p (o p) with
    | .ok study => ([p], .ok study)
    | .error _ =>
      let tail := get_study_loop o finalErr rest
      (p :: tail.1, tail.2)

/-- EnaApiHandler.get_study: try every candidate parameter set in
order, return the first hit, raise the final ValueError otherwise. -/
def get_study (o : Oracle) (pAcc sAcc fieldsOpt : Option String) :
    List ApiParams × Except PyErr Record :=
  get_study_loop o
    (.valueError ["Could not find study " ++ pyStr pAcc ++ " " ++
      pyStr sAcc ++ " in ENA."])
    (study_query_params pAcc sAcc fieldsOpt)

/-- The query of EnaApiHandler.get_study_assemblies. -/
def assembliesQuery (acc : String) (allowNonPrimary : Bool) : String :=
  let q := "(study_accession=\"" ++ acc ++
    "\" OR secondary_study_accession=\"" ++ acc ++ "\")"
  if !allowNonPrimary then q ++ " AND assembly_type=\"primary metagenome\""
  else q

/-- Python `r["analysis_accession"] in filter_accessions` for one row. -/
def assemblyInFilter (accs : List String) (r : Record) :
    Except PyErr Bool :=
  match lookupKey r "analysis_accession" with
  | none => .error (.keyError "analysis_accession")
  | some (.vStr a) => .ok (accs.contains a)
  | some _ => .ok false

/-- EnaApiHandler.get_study_assemblies. filterAccs models
filter_accessions with the empty list standing for the falsy
None/empty cases. On 204 with retry the source computes the next
portal as ena when the portal is metagenome and ena otherwise, then
recurses once with retry False; a second 204 returns the empty
list. -/
def get_study_assemblies (o : Oracle) (acc : String)
    (fieldsOpt : Option String) (filterAccs : List String)
    (allowNonPrimary : Bool) (portal : String) (retry : Bool) :
    List ApiParams × Except PyErr (List Record) :=
  let data : ApiParams :=
    { format := "json", includeMetagenomes := true, dataPortal := portal,
      result := "analysis",
      fields := pyOrStr fieldsOpt ASSEMBLY_DEFAULT_FIELDS_STR,
      query := assembliesQuery acc allowNonPrimary }
  let resp := o data
  if 400 ≤ resp.status then
    ([data], .error (.valueError
      ["Could not retrieve assemblies for study %s.", acc]))
  else if resp.status == 204 then
    if _h : retry then
      let newPortal := if portal == "metagenome" then "ena" else "ena"
      let tail := get_study_assemblies o acc fieldsOpt filterAccs
        allowNonPrimary newPortal false
      (data :: tail.1, tail.2)
    else
      ([data], .ok [])
  else
    match jsonRows resp.body with
    | .error e => ([data], .error e)
    | .ok asms =>
      if filterAccs.isEmpty then ([data], .ok asms)
      else
        match asms.filterM (assemblyInFilter filterAccs) with
        | .ok kept => ([data], .ok kept)
        | .error e => ([data], .error e)
termination_by (if retry then 1 else 0)
decreasing_by
  simp [_h]

/-! ### Concrete transport oracles used to instantiate the theorems -/

/-- A transport that answers 204 No Content on every attempt. -/
def oracleAll204 : Oracle := fun _ => { status := 204, body := .noText }

/-- A transport that answers 401 with a JSON error body carrying a
message field, as the portal does for an invalid field name. -/
def oracle401Message : Oracle := fun _ =>
  { status := 401, body := .obj (some "Invalid fieldName(s) supplied: bogus") }

/-- A transport that answers 201 Created, a 2xx other than 200/204. -/
def oracle201 : Oracle := fun _ => { status := 201, body := .raw "x" }

/-- A transport that answers 202 Accepted, a 2xx other than 200/204. -/
def oracle202 : Oracle := fun _ => { status := 202, body := .raw "x" }

/-- A transport whose first study candidate (study, ena) returns 200
with an undecodable body and whose second (study, metagenome) returns
one study row; every other candidate would return 204. -/
def oracleParseErrorThenRow : Oracle := fun q =>
  if q.result == "study" && q.dataPortal == "ena" then
    { status := 200, body := .raw "oops" }
  else if q.result == "study" && q.dataPortal == "metagenome" then
    { status := 200, body := .rows [[("study_accession", .vStr "PRJ1")]] }
  else { status := 204, body := .noText }

/-- A transport that answers 200 with an undecodable body on every
attempt. -/
def oracle200Malformed : Oracle := fun _ =>
  { status := 200, body := .raw "oops" }

/-- A transport on which only the third study candidate
(read_study, ena) has data; the candidates before it return 204. -/
def oracleThirdCandidate : Oracle := fun q =>
  if q.result == "read_study" && q.dataPortal == "ena" then
    { status := 200, body := .rows [[("study_accession", .vStr "PRJ1")]] }
  else { status := 204, body := .noText }

/-- A transport for assembly queries that answers 204 on every
attempt (a study with zero assemblies). -/
def oracleAssemblies204 : Oracle := fun _ => { status := 204, body := .noText }

/-! ### Laws of the record operations -/

theorem lookupKey_cons (kv : String × Value) (rest : Record) (k : String) :
    lookupKey (kv :: rest) k =
      if kv.1 = k then some kv.2 else lookupKey rest k := by
  by_cases h : kv.1 = k <;> simp [lookupKey, List.find?_cons, h]

theorem popKey_cons (kv : String × Value) (rest : Record) (k : String) :
    popKey (kv :: rest) k =
      if kv.1 = k then popKey rest k else kv :: popKey rest k := by
  by_cases h : kv.1 = k <;> simp [popKey, List.filter_cons, h]

theorem containsKey_cons (kv : String × Value) (rest : Record) (k : String) :
    containsKey (kv :: rest) k =
      if kv.1 = k then true else containsKey rest k := by
  by_cases h : kv.1 = k <;> simp [containsKey, List.any_cons, h]

theorem lookupKey_popKey_self (r : Record) (k : String) :
    lookupKey (popKey r k) k = none := by
  induction r with
  | nil => rfl
  | cons kv rest ih =>
    rw [popKey_cons]
    by_cases h : kv.1 = k
    · rw [if_pos h]
      exact ih
    · rw [if_neg h, lookupKey_cons, if_neg h]
      exact ih

theorem lookupKey_popKey_ne (r : Record) (k k' : String) (h : k' ≠ k) :
    lookupKey (popKey r k) k' = lookupKey r k' := by
  induction r with
  | nil => rfl
  | cons kv rest ih =>
    rw [popKey_cons, lookupKey_cons]
    by_cases h1 : kv.1 = k
    · have h2 : ¬(kv.1 = k') := by rw [h1]; exact fun he => h he.symm
      rw [if_pos h1, if_neg h2]
      exact ih
    · rw [if_neg h1, lookupKey_cons]
      by_cases h2 : kv.1 = k'
      · rw [if_pos h2, if_pos h2]
      · rw [if_neg h2, if_neg h2]
        exact ih

theorem lookupKey_map_set_ne (r : Record) (k k' : String) (v : Value)
    (h : k' ≠ k) :
    lookupKey (r.map (fun kv => if kv.1 == k then (k, v) else kv)) k' =
      lookupKey r k' := by
  induction r with
  | nil => rfl
  | cons kv rest ih =>
    rw [List.map_cons, lookupKey_cons]
    by_cases h1 : kv.1 = k
    · rw [show (if (kv.1 == k) = true then (k, v) else kv) = (k, v) by
        simp [h1]]
      rw [lookupKey_cons]
      have h2 : ¬(kv.1 = k') := by rw [h1]; exact fun he => h he.symm
      rw [if_neg h2]
      simp only [Ne.symm h, if_false]
      exact ih
    · rw [show (if (kv.1 == k) = true then (k, v) else kv) = kv by simp [h1]]
      rw [lookupKey_cons]
      by_cases h2 : kv.1 = k'
      · rw [if_pos h2, if_pos h2]
      · rw [if_neg h2, if_neg h2]
        exact ih

theorem lookupKey_append_single_ne (r : Record) (k k' : String) (v : Value)
    (h : k' ≠ k) :
    lookupKey (r ++ [(k, v)]) k' = lookupKey r k' := by
  induction r with
  | nil =>
    show lookupKey [(k, v)] k' = lookupKey [] k'
    rw [lookupKey_cons, if_neg (fun he => h he.symm)]
  | cons kv rest ih =>
    rw [List.cons_append, lookupKey_cons, lookupKey_cons]
    by_cases h2 : kv.1 = k'
    · rw [if_pos h2, if_pos h2]
    · rw [if_neg h2, if_neg h2]
      exact ih

theorem lookupKey_setKey_ne (r : Record) (k k' : String) (v : Value)
    (h : k' ≠ k) : lookupKey (setKey r k v) k' = lookupKey r k' := by
  unfold setKey
  by_cases hc : containsKey r k
  · rw [if_pos hc]
    exact lookupKey_map_set_ne r k k' v h
  · rw [if_neg hc]
    exact lookupKey_append_single_ne r k k' v h

theorem containsKey_of_lookupKey (r : Record) (k : String) (v : Value)
    (h : lookupKey r k = some v) : containsKey r k = true := by
  induction r with
  | nil => simp [lookupKey] at h
  | cons kv rest ih =>
    rw [containsKey_cons]
    rw [lookupKey_cons] at h
    by_cases h1 : kv.1 = k
    · rw [if_pos h1]
    · rw [if_neg h1]
      rw [if_neg h1] at h
      exact ih h

/-- After one remap, the legacy study_description key is gone. -/
theorem remap_study_fields_no_study_description (d : Record) :
    lookupKey (remap_study_fields d) "study_description" = none := by
  unfold remap_study_fields
  have hd1 : ∀ d1 : Record, lookupKey d1 "study_description" = none →
      lookupKey (match lookupKey d1 "study_name" with
        | some v => setKey (popKey d1 "study_name") "study_alias" v
        | none => d1) "study_description" = none := by
    intro d1 h1
    cases hv : lookupKey d1 "study_name" with
    | none => simpa using h1
    | some v =>
      simp only
      rw [lookupKey_setKey_ne _ _ _ _ (by decide),
        lookupKey_popKey_ne _ _ _ (by decide)]
      exact h1
  cases hv : lookupKey d "study_description" with
  | none => exact hd1 d hv
  | some v =>
    apply hd1
    rw [lookupKey_setKey_ne _ _ _ _ (by decide)]
    exact lookupKey_popKey_self _ _

/-- After one remap, the legacy study_name key is gone. -/
theorem remap_study_fields_no_study_name (d : Record) :
    lookupKey (remap_study_fields d) "study_name" = none := by
  unfold remap_study_fields
  cases hv : lookupKey (match lookupKey d "study_description" with
      | some v => setKey (popKey d "study_description") "description" v
      | none => d) "study_name" with
  | none => simp [hv]
  | some v =>
    simp only [hv]
    rw [lookupKey_setKey_ne _ _ _ _ (by decide)]
    exact lookupKey_popKey_self _ _

/-- A record holding neither legacy key is left unchanged by the
remap. -/
theorem remap_study_fields_of_absent (x : Record)
    (h1 : lookupKey x "study_description" = none)
    (h2 : lookupKey x "study_name" = none) :
    remap_study_fields x = x := by
  simp [remap_study_fields, h1, h2]

/-- Claim C8: the study field renaming performed by the normalizer is
idempotent: for every record, applying remap_study_fields
(study_description to description, study_name to study_alias) to its
own output changes no field names and no field values. -/
theorem remap_study_fields_idempotent (d : Record) :
    remap_study_fields (remap_study_fields d) = remap_study_fields d :=
  remap_study_fields_of_absent _
    (remap_study_fields_no_study_description d)
    (remap_study_fields_no_study_name d)

theorem lookupKey_setKey_self (r : Record) (k : String) (v : Value) :
    lookupKey (setKey r k v) k = some v := by
  unfold setKey
  by_cases hc : containsKey r k
  · rw [if_pos hc]
    induction r with
    | nil => simp [containsKey] at hc
    | cons kv rest ih =>
      rw [containsKey_cons] at hc
      rw [List.map_cons, lookupKey_cons]
      by_cases h1 : kv.1 = k
      · rw [show (if (kv.1 == k) = true then (k, v) else kv) = (k, v) by
          simp [h1]]
        simp
      · rw [show (if (kv.1 == k) = true then (k, v) else kv) = kv by
          simp [h1]]
        rw [if_neg h1]
        rw [if_neg h1] at hc
        exact ih hc
  · rw [if_neg hc]
    induction r with
    | nil =>
      rw [List.nil_append, lookupKey_cons]
      simp
    | cons kv rest ih =>
      rw [containsKey_cons] at hc
      by_cases h1 : kv.1 = k
      · rw [if_pos h1] at hc
        exact absurd hc (by simp)
      · rw [if_neg h1] at hc
        rw [List.cons_append, lookupKey_cons, if_neg h1]
        exact ih hc

theorem setKey_value_ne (r : Record) (k : String) (v w : Value)
    (hvw : v ≠ w) : setKey r k v ≠ setKey r k w := by
  intro he
  have hv := lookupKey_setKey_self r k v
  rw [he, lookupKey_setKey_self] at hv
  exact hvw (Option.some.inj hv).symm

/-- Claim C1 counterexample: on a record whose read_count is the
unparseable string abc, the get_run coercion with public True yields
the -1 sentinel instead of raising, and with public False raises the
ValueError instead of substituting -1: the reverse of the claimed
public/private behaviour. -/
theorem get_run_coercion_counterexample :
    get_run_coerce_one true [("read_count", Value.vStr "abc")]
      "read_count" = .ok [("read_count", Value.vInt (-1))] ∧
    get_run_coerce_one false [("read_count", Value.vStr "abc")]
      "read_count" =
      .error (.valueError ["invalid literal for int() with base 10: abc"]) := by
  decide

/-- Claim C1 (amended): for every record whose read_count or
base_count field holds a string that does not parse as an integer,
the get_run coercion substitutes the sentinel -1 when the record is
marked public (public True) and raises the coercion ValueError when
it is marked non-public (public False). -/
theorem get_run_coercion_public_sentinel_nonpublic_raises
    (run : Record) (p s : String)
    (_hp : p = "read_count" ∨ p = "base_count")
    (hv : lookupKey run p = some (.vStr s))
    (hbad : pythonInt s = none) :
    get_run_coerce_one true run p = .ok (setKey run p (.vInt (-1))) ∧
    get_run_coerce_one false run p =
      .error (.valueError ["invalid literal for int() with base 10: " ++ s]) := by
  have hc := containsKey_of_lookupKey run p _ hv
  constructor <;> simp [get_run_coerce_one, hc, hv, pyIntOfValue, hbad]

/-- Witness for the amended claim C1 at a concrete record. -/
theorem get_run_coercion_public_sentinel_nonpublic_raises_witness :
    (lookupKey [("read_count", Value.vStr "abc")] "read_count" =
      some (Value.vStr "abc")) ∧
    get_run_coerce_one true [("read_count", Value.vStr "abc")]
      "read_count" =
      .ok (setKey [("read_count", Value.vStr "abc")] "read_count"
        (Value.vInt (-1))) :=
  ⟨by decide, (get_run_coercion_public_sentinel_nonpublic_raises
    [("read_count", Value.vStr "abc")] "read_count" "abc" (Or.inl rfl)
    (by decide) (by decide)).1⟩

/-- Claim C10: in the get_study_runs coercion a read_count or
base_count string that does not parse as an integer is set to None,
which differs from the -1 sentinel, with no public flag involved; and
on any record whose looked-up field holds a string the coercion
always returns a record and never raises. -/
theorem get_study_runs_coercion_unparseable_to_none
    (run : Record) (p s : String)
    (_hp : p = "read_count" ∨ p = "base_count")
    (hv : lookupKey run p = some (.vStr s))
    (hbad : pythonInt s = none) :
    (get_study_runs_coerce_one run p = .ok (setKey run p Value.vNone) ∧
      setKey run p Value.vNone ≠ setKey run p (Value.vInt (-1))) ∧
    (∀ (r2 : Record) (q t : String), lookupKey r2 q = some (.vStr t) →
      ∃ out, get_study_runs_coerce_one r2 q = .ok out) := by
  have hc := containsKey_of_lookupKey run p _ hv
  refine ⟨⟨?_, setKey_value_ne run p _ _ (by decide)⟩, ?_⟩
  · simp [get_study_runs_coerce_one, hc, hv, pyIntOfValue, hbad]
  · intro r2 q t hv2
    have hc2 := containsKey_of_lookupKey r2 q _ hv2
    cases hparse : pythonInt t with
    | none =>
      exact ⟨setKey r2 q Value.vNone, by
        simp [get_study_runs_coerce_one, hc2, hv2, pyIntOfValue, hparse]⟩
    | some n =>
      exact ⟨setKey r2 q (Value.vInt n), by
        simp [get_study_runs_coerce_one, hc2, hv2, pyIntOfValue, hparse]⟩

/-- Witness for claim C10 at a concrete record. -/
theorem get_study_runs_coercion_unparseable_to_none_witness :
    (lookupKey [("read_count", Value.vStr "abc")] "read_count" =
      some (Value.vStr "abc")) ∧
    get_study_runs_coerce_one [("read_count", Value.vStr "abc")]
      "read_count" =
      .ok (setKey [("read_count", Value.vStr "abc")] "read_count"
        Value.vNone) :=
  ⟨by decide, (get_study_runs_coercion_unparseable_to_none
    [("read_count", Value.vStr "abc")] "read_count" "abc" (Or.inl rfl)
    (by decide) (by decide)).1.1⟩

/-- Claim C7, the raw size computation evaluated at the decisive
inputs: summing fastq_bytes works and a record with neither byte
field yields None without raising, but a record carrying
submitted_bytes without submitted_ftp raises KeyError instead of
summing submitted_bytes, because the source guards the sum with
len of run["submitted_ftp"]; with submitted_ftp also present the sum
is returned. -/
theorem get_run_raw_size_eval :
    get_run_raw_size [("fastq_bytes", Value.vStr "100;200;300")] =
      .ok (some 600) ∧
    get_run_raw_size [] = .ok none ∧
    get_run_raw_size [("submitted_bytes", Value.vStr "100")] =
      .error (.keyError "submitted_ftp") ∧
    get_run_raw_size [("submitted_bytes", Value.vStr "100"),
      ("submitted_ftp", Value.vStr "f.gz")] = .ok (some 100) := by
  decide

/-- Claim C2 counterexample: with every transport response 204, a
default get_run call makes six transport calls, not the claimed one
plus two, and the raised error names the constant RETRY_COUNT of 5
rather than the number of attempts actually made. -/
theorem get_run_all_204_counterexample :
    (get_run oracleAll204 "ERR1" none true 0 none).1.length = 6 ∧
    ¬((get_run oracleAll204 "ERR1" none true 0 none).1.length = 3) ∧
    (get_run oracleAll204 "ERR1" none true 0 none).2 =
      .error (.valueError
        ["Could not find run ERR1 in ENA after 5 attempts"]) := by
  refine ⟨?_, ?_, ?_⟩ <;>
    simp +decide [get_run, oracleAll204, statusStartsWith2]

/-- Claim C2 (amended): for every run accession, if every transport
response to get_run is 204 then the default call makes six transport
calls, three on the metagenome partition and then three on the ena
partition, and raises a ValueError naming the accession and the
constant RETRY_COUNT, whose value 5 is independent of the count of
attempts actually made. -/
theorem get_run_all_204_six_calls_retry_count_error
    (o : Oracle) (acc : String) (h : ∀ p, (o p).status = 204) :
    (get_run o acc none true 0 none).1.map (fun p => p.dataPortal) =
      ["metagenome", "metagenome", "metagenome", "ena", "ena", "ena"] ∧
    (get_run o acc none true 0 none).2 =
      .error (.valueError ["Could not find run " ++ acc ++
        " in ENA after " ++ Nat.repr RETRY_COUNT ++ " attempts"]) := by
  constructor <;> simp +decide [get_run, h, statusStartsWith2]

/-- Witness for the amended claim C2 on a concrete all-204
transport. -/
theorem get_run_all_204_six_calls_retry_count_error_witness :
    (get_run oracleAll204 "ERR1" none true 0 none).1.map
      (fun p => p.dataPortal) =
      ["metagenome", "metagenome", "metagenome", "ena", "ena", "ena"] :=
  (get_run_all_204_six_calls_retry_count_error oracleAll204 "ERR1"
    (fun _ => rfl)).1

/-- Claim C4, code behaviour at the failing input: on a 401 response
whose JSON body carries a message field, get_run fails immediately
after a single transport call, but the ValueError carries only the
generic format string and the accession, not the message extracted
from the response body. -/
theorem get_run_non2xx_generic_error :
    (get_run oracle401Message "ERR1" none true 0 none).1.length = 1 ∧
    (get_run oracle401Message "ERR1" none true 0 none).2 =
      .error (.valueError
        ["Could not retrieve run with accession %s.", "ERR1"]) := by
  constructor <;>
    simp +decide [get_run, oracle401Message, statusStartsWith2]

/-- Claim C9: on 2xx statuses other than 200 and 204, here 201 and
202, get_sample returns the Python None after a single transport
call: no record, no exception, no fallback attempt. -/
theorem get_sample_other_2xx_returns_none :
    ((get_sample oracle201 "SAM1" none none 0).1.length = 1 ∧
      (get_sample oracle201 "SAM1" none none 0).2 = .ok none) ∧
    ((get_sample oracle202 "SAM1" none none 0).1.length = 1 ∧
      (get_sample oracle202 "SAM1" none none 0).2 = .ok none) := by
  refine ⟨⟨?_, ?_⟩, ⟨?_, ?_⟩⟩ <;>
    simp +decide [get_sample, oracle201, oracle202, statusStartsWith2]

/-- Claim C5, code behaviour evaluated on a study with zero
assemblies: starting from the metagenome partition the single
fallback attempt queries the ena partition and the call returns the
empty list, but starting from the ena partition the fallback queries
ena again rather than the alternate metagenome partition, because
the source computes the new portal as ena in both branches of its
conditional. -/
theorem get_study_assemblies_fallback_portal_eval :
    ((get_study_assemblies oracleAssemblies204 "ERP1" none [] false
        "metagenome" true).1.map (fun p => p.dataPortal) =
      ["metagenome", "ena"] ∧
      (get_study_assemblies oracleAssemblies204 "ERP1" none [] false
        "metagenome" true).2 = .ok []) ∧
    ((get_study_assemblies oracleAssemblies204 "ERP1" none [] false
        "ena" true).1.map (fun p => p.dataPortal) = ["ena", "ena"] ∧
      (get_study_assemblies oracleAssemblies204 "ERP1" none [] false
        "ena" true).2 = .ok []) := by
  refine ⟨⟨?_, ?_⟩, ⟨?_, ?_⟩⟩ <;>
    simp +decide [get_study_assemblies, oracleAssemblies204]

/-- Claim C3 counterexample: a 2xx response with an undecodable body
on the first study candidate does not fail the call with a parse
error; the engine advances and returns the row of the second
candidate, so two transport calls are made. -/
theorem get_study_parse_error_advances :
    (get_study oracleParseErrorThenRow (some "PRJ1") none none).1.length
      = 2 ∧
    (get_study oracleParseErrorThenRow (some "PRJ1") none none).2 =
      .ok [("study_accession", Value.vStr "PRJ1")] := by
  decide

/-- Claim C3 (amended): a 2xx response whose body cannot be decoded
is caught like the no-data case: get_study advances to the next
fallback candidate, and when every candidate yields an undecodable
200 response all six candidates are sent and the call ends with the
generic not-found ValueError, not a parse-error classification. -/
theorem get_study_all_parse_errors_exhaust_candidates
    (o : Oracle) (pAcc sAcc fieldsOpt : Option String) (t : String)
    (h : ∀ p, o p = { status := 200, body := Body.raw t }) :
    (get_study o pAcc sAcc fieldsOpt).1 =
      study_query_params pAcc sAcc fieldsOpt ∧
    (get_study o pAcc sAcc fieldsOpt).2 =
      .error (.valueError ["Could not find study " ++ pyStr pAcc ++ " " ++
        pyStr sAcc ++ " in ENA."]) := by
  constructor <;>
    simp +decide [get_study, get_study_loop, study_query_params,
      _get_study, h, jsonFirstRow]

/-- Witness for the amended claim C3 on a concrete all-malformed
transport. -/
theorem get_study_all_parse_errors_exhaust_candidates_witness :
    (get_study oracle200Malformed (some "PRJ1") none none).1 =
      study_query_params (some "PRJ1") none none :=
  (get_study_all_parse_errors_exhaust_candidates oracle200Malformed
    (some "PRJ1") none none "oops" (fun _ => rfl)).1

/-- The candidate loop of get_study returns the first success and
sends nothing afterwards. -/
theorem get_study_loop_first_success (o : Oracle) (err : PyErr)
    (before after : List ApiParams) (c : ApiParams) (r : Record)
    (hfail : ∀ q ∈ before, ∃ e, _get_study q (o q) = .error e)
    (hok : _get_study c (o c) = .ok r) :
    get_study_loop o err (before ++ c :: after) = (before ++ [c], .ok r) := by
  induction before with
  | nil =>
    simp only [List.nil_append]
    simp [get_study_loop, hok]
  | cons q qs ih =>
    obtain ⟨e, he⟩ := hfail q (List.mem_cons_self q qs)
    have ih2 := ih (fun q2 hq2 => hfail q2 (List.mem_cons_of_mem q hq2))
    simp only [List.cons_append]
    simp [get_study_loop, he, ih2]

/-- Claim C6: the get_study candidates are exactly the Cartesian
product of result types study, read_study, analysis_study with data
portals ena, metagenome, ordered (study, ena), (study, metagenome),
(read_study, ena), (read_study, metagenome), (analysis_study, ena),
(analysis_study, metagenome); and the engine returns the result of
the first candidate yielding usable data, sending no request for any
later candidate. -/
theorem get_study_candidates_and_first_success
    (pAcc sAcc fieldsOpt : Option String) :
    ((study_query_params pAcc sAcc fieldsOpt).map
        (fun p => (p.result, p.dataPortal)) =
      [("study", "ena"), ("study", "metagenome"), ("read_study", "ena"),
       ("read_study", "metagenome"), ("analysis_study", "ena"),
       ("analysis_study", "metagenome")]) ∧
    ∀ (o : Oracle) (before after : List ApiParams) (c : ApiParams)
      (r : Record),
      study_query_params pAcc sAcc fieldsOpt = before ++ c :: after →
      (∀ q ∈ before, ∃ e, _get_study q (o q) = .error e) →
      _get_study c (o c) = .ok r →
      get_study o pAcc sAcc fieldsOpt = (before ++ [c], .ok r) := by
  constructor
  · simp [study_query_params]
  · intro o before after c r hsplit hfail hok
    unfold get_study
    rw [hsplit]
    exact get_study_loop_first_success o _ before after c r hfail hok

set_option maxRecDepth 8000 in
/-- Witness for claim C6: on a transport where only the third
candidate (read_study, ena) has data, get_study sends the first three
candidates only and returns that row. -/
theorem get_study_candidates_and_first_success_witness :
    get_study oracleThirdCandidate (some "PRJ1") none none =
      ([{ format := "json", includeMetagenomes := true, dataPortal := "ena",
          result := "study",
          fields := "study_accession,secondary_study_accession," ++
            "study_description,study_name,study_title,tax_id," ++
            "scientific_name,center_name,first_public",
          query := "study_accession=\"PRJ1\"" },
        { format := "json", includeMetagenomes := true,
          dataPortal := "metagenome", result := "study",
          fields := "study_accession,secondary_study_accession," ++
            "study_description,study_name,study_title,tax_id," ++
            "scientific_name,center_name,first_public",
          query := "study_accession=\"PRJ1\"" },
        { format := "json", includeMetagenomes := true, dataPortal := "ena",
          result := "read_study",
          fields := "study_accession,secondary_study_accession," ++
            "description,study_alias,study_title,tax_id," ++
            "scientific_name,center_name,first_public",
          query := "study_accession=\"PRJ1\"" }],
        .ok [("study_accession", Value.vStr "PRJ1")]) := by
  have h := (get_study_candidates_and_first_success
      (some "PRJ1") none none).2 oracleThirdCandidate
    [{ format := "json", includeMetagenomes := true, dataPortal := "ena",
       result := "study",
       fields := "study_accession,secondary_study_accession," ++
         "study_description,study_name,study_title,tax_id," ++
         "scientific_name,center_name,first_public",
       query := "study_accession=\"PRJ1\"" },
     { format := "json", includeMetagenomes := true,
       dataPortal := "metagenome", result := "study",
       fields := "study_accession,secondary_study_accession," ++
         "study_description,study_name,study_title,tax_id," ++
         "scientific_name,center_name,first_public",
       query := "study_accession=\"PRJ1\"" }]
    [{ format := "json", includeMetagenomes := true,
       dataPortal := "metagenome", result := "read_study",
       fields := "study_accession,secondary_study_accession," ++
         "description,study_alias,study_title,tax_id," ++
         "scientific_name,center_name,first_public",
       query := "study_accession=\"PRJ1\"" },
     { format := "json", includeMetagenomes := true, dataPortal := "ena",
       result := "analysis_study",
       fields := "study_accession,secondary_study_accession," ++
         "description,study_alias,study_title,tax_id," ++
         "scientific_name,center_name,first_public",
       query := "study_accession=\"PRJ1\"" },
     { format := "json", includeMetagenomes := true,
       dataPortal := "metagenome", result := "analysis_study",
       fields := "study_accession,secondary_study_accession," ++
         "description,study_alias,study_title,tax_id," ++
         "scientific_name,center_name,first_public",
       query := "study_accession=\"PRJ1\"" }]
    { format := "json", includeMetagenomes := true, dataPortal := "ena",
      result := "read_study",
      fields := "study_accession,secondary_study_accession," ++
        "description,study_alias,study_title,tax_id," ++
        "scientific_name,center_name,first_public",
      query := "study_accession=\"PRJ1\"" }
    [("study_accession", Value.vStr "PRJ1")]
    (by decide)
    (by
      intro q hq
      fin_cases hq
      · exact ⟨.noData, by decide⟩
      · exact ⟨.noData, by decide⟩)
    (by decide)
  exact h

end Ena
